import Mathlib

/-!
Verification of the per-channel WhatsApp connection supervisors in this
repository.  The repository holds several near-duplicate HTTP wrappers around
the whatsapp-web.js client; the definitions below are a shallow embedding of
the per-channel state they keep (client object present, cached connected flag,
stored QR pairing code, reconnect-attempt counter) and of the handlers and
helpers the claims are about.

Namespaces and the files they embed:
* `WWeb.P3`  — `src/unnamed/part_003` (scheduleReconnect, startClient, the
  client event handlers, and the reconnect timer callback).
* `WWeb.WS1` — the first server in `src/web-server.js` (the plain
  `http.createServer` variant: startClient and its client event handlers).
* `WWeb.WSE` — the second server in `src/web-server.js` (the Express variant:
  `getPortFromQuery`, the `/health`, `/status`, `/connect`, `/qr`, `/qr.png`,
  `/send`, `/debug/chrome` handlers).
* `WWeb.P4`  — `src/unnamed/part_004` (`waitQR`).
* `WWeb.P5`  — `src/unnamed/part_005` (`getPortFromQuery`).

Asynchronous sleeps are idealized as exactly their nominal duration, so the
time-bounded QR wait loop of part_004 (guard `now() - start < 30000` with
`sleep(1000)` per iteration) is embedded with a fuel of 30 one-second polls.
Calls into the underlying client (`getState`, `sendMessage`, QR rendering)
are passed in as explicit `Except` results.
-/

namespace WWeb

/-- JavaScript truthiness of a possibly-absent string value (`undefined`,
`null` and `''` are falsy; every other string is truthy). -/
def strTruthy : Option String → Bool
  | none => false
  | some s => !s.isEmpty

/-- JS `x || d` for a possibly-absent string `x` and default `d`. -/
def strOrElse (o : Option String) (d : String) : String :=
  if strTruthy o then o.getD d else d

/-- Per-channel supervisor state shared by all variants: whether a client
object is stored for the port, the cached connected flag
(`connectionStatus`), the stored QR code (`qrCodes`), and the reconnect
attempt counter (`reconnectAttempts`, absent keys read as 0). -/
structure ChannelState where
  clientExists : Bool
  connected : Bool
  qr : Option String
  retry : Nat
deriving DecidableEq, Repr

namespace P3

/-- part_003: `let maxReconnectAttempts = 5;`. -/
def maxReconnectAttempts : Nat := 5

/-- part_003 `scheduleReconnect(port)`: if the attempt counter is below the
maximum, a timer is armed with delay `Math.min(1000 * Math.pow(2, n), 30000)`
milliseconds; otherwise nothing is scheduled.  Returns the armed delay. -/
def scheduleReconnect (retry : Nat) : Option Nat :=
  if retry < maxReconnectAttempts then some (min (1000 * 2 ^ retry) 30000) else none

/-- part_003 `'qr'` event handler: store the received code. -/
def clientOnQR (code : String) (s : ChannelState) : ChannelState :=
  { s with qr := some code }

/-- part_003 `'ready'` event handler: connected flag true, QR cleared,
reconnect attempts reset to 0. -/
def clientOnReady (s : ChannelState) : ChannelState :=
  { s with connected := true, qr := none, retry := 0 }

/-- part_003 `'authenticated'` event handler: same effect as `'ready'`. -/
def clientOnAuthenticated (s : ChannelState) : ChannelState :=
  { s with connected := true, qr := none, retry := 0 }

/-- part_003 `'disconnected'` event handler: connected flag false, QR
cleared, then `scheduleReconnect(port)`.  The second component is the delay
of the reconnect timer armed by the handler, if any. -/
def clientOnDisconnected (s : ChannelState) : ChannelState × Option Nat :=
  ({ s with connected := false, qr := none }, scheduleReconnect s.retry)

/-- part_003 `'auth_failure'` event handler: connected flag false, QR
cleared, then `scheduleReconnect(port)` — identical to the disconnect
handler. -/
def clientOnAuthFailure (s : ChannelState) : ChannelState × Option Nat :=
  ({ s with connected := false, qr := none }, scheduleReconnect s.retry)

/-- part_003 `startClient(port)`: returns immediately when a client exists
and the cached flag says connected; otherwise destroys and deletes any
existing client (clearing the flag and the QR) and stores a fresh client.
Result: (new state, whether an old client was destroyed, whether a fresh
client was created). -/
def startClient (s : ChannelState) : ChannelState × Bool × Bool :=
  if s.clientExists && s.connected then (s, false, false)
  else
    let s1 := if s.clientExists then
        { s with clientExists := false, connected := false, qr := none }
      else s
    ({ s1 with clientExists := true }, s.clientExists, true)

/-- part_003 reconnect timer callback:
`reconnectAttempts[port]++; startClient(port);`. -/
def fireReconnect (s : ChannelState) : ChannelState :=
  (startClient { s with retry := s.retry + 1 }).1

end P3

namespace WS1

/-- Events emitted by the underlying client object. -/
inductive ClientEvent
  | qr (code : String)
  | ready
  | authenticated
  | disconnected (reason : String)
  | authFailure (msg : String)

/-- web-server.js (first server) client event handlers, as registered in its
`startClient`: `qr` stores the code and sets the connected flag false;
`ready`/`authenticated` set it true and clear the QR; `disconnected` and
`auth_failure` set it false, clear the QR and delete the client object.
This variant contains no reconnect scheduler. -/
def step (s : ChannelState) : ClientEvent → ChannelState
  | ClientEvent.qr code => { s with qr := some code, connected := false }
  | ClientEvent.ready => { s with connected := true, qr := none }
  | ClientEvent.authenticated => { s with connected := true, qr := none }
  | ClientEvent.disconnected _ => { s with connected := false, qr := none, clientExists := false }
  | ClientEvent.authFailure _ => { s with connected := false, qr := none, clientExists := false }

/-- State right after web-server.js (first server) `startClient` stores a
fresh client: client present, no cached connected flag, no QR. -/
def startState : ChannelState := ⟨true, false, none, 0⟩

/-- States reachable from a freshly started client through the event
handlers of web-server.js (first server). -/
inductive Reachable : ChannelState → Prop
  | start : Reachable startState
  | next (s : ChannelState) (e : ClientEvent) : Reachable s → Reachable (step s e)

/-- web-server.js (first server) `startClient(porta)`: returns immediately
whenever any client object exists for the port — connected or not — and
otherwise stores a fresh client.  Result shaped like `P3.startClient`:
(new state, old client destroyed?, fresh client created?). -/
def startClient (s : ChannelState) : ChannelState × Bool × Bool :=
  if s.clientExists then (s, false, false)
  else ({ s with clientExists := true }, false, true)

/-- web-server.js (first server) `'auth_failure'` handler viewed with the
same result shape as `P3.clientOnAuthFailure`: state update plus the delay
of any reconnect timer armed (this variant never arms one). -/
def clientOnAuthFailure (s : ChannelState) : ChannelState × Option Nat :=
  ({ s with connected := false, qr := none, clientExists := false }, none)

end WS1

/-- Bounded one-second QR poll loop shared (verbatim, up to the bound) by the
`/qr` and `/qr.png` handlers and part_004's `waitQR`:
`for (let i = 0; i < fuel && !qrCodes.get(porta); i++) await sleep(1000);`.
`env i` is the stored QR after `i` sleeps; the result is the number of sleeps
performed (= the loop index on exit). -/
def pollSleeps (env : Nat → Option String) : Nat → Nat → Nat
  | 0, i => i
  | fuel + 1, i => if strTruthy (env i) then i else pollSleeps env fuel (i + 1)

namespace P4

/-- part_004 `waitQR(porta, maxMs = 30000)`: poll the stored QR every 1000 ms
while it is absent and less than 30000 ms have elapsed.  With sleeps
idealized to exactly 1000 ms the guard `now() - start < 30000` holds at the
check after `i` sleeps iff `i < 30`. -/
def waitQR (env : Nat → Option String) : Nat := pollSleeps env 30 0

end P4

namespace WSE

/-- The observable JSON fields the claims talk about: the `success` boolean,
the `error` string of failure responses, and the `connected` / `qr` fields
where a handler emits them. -/
structure JsonOut where
  success : Bool
  error : Option String
  connected : Option Bool
  qr : Option String
deriving DecidableEq, Repr

/-- Response body: a JSON object, a plain-text body, or PNG bytes. -/
inductive RespBody
  | json (payload : JsonOut)
  | text (content : String)
  | png
deriving DecidableEq, Repr

/-- HTTP response: status code, content type, body. -/
structure Resp where
  status : Nat
  contentType : String
  body : RespBody
deriving DecidableEq, Repr

/-- Whether a response body is a JSON object with a `success` boolean that,
when `success` is false, also carries an `error` string. -/
def respJsonOk (r : Resp) : Bool :=
  match r.body with
  | RespBody.json j => j.success || j.error.isSome
  | _ => false

/-- The sentinel the Express `/qr` and `/qr.png` handlers fall back to when
no QR code is stored. -/
def qrSentinel : String := "QR indisponível. Tente novamente em alguns segundos."

/-- Error message of the Express `/send` handler when the `to` field is
missing or empty. -/
def missingToMsg : String := "Campo \"to\" é obrigatório (ex: 559999999999@c.us)."

/-- Error message of the Express `/send` handler when no client exists or
the cached connected flag is false. -/
def notConnectedMsg : String := "WhatsApp não está conectado."

/-- Number of sleeps the Express `/qr` and `/qr.png` handlers perform: zero
when a client object already exists, otherwise the 10-iteration poll loop. -/
def qrWaitSleeps (clientExists : Bool) (env : Nat → Option String) : Nat :=
  if clientExists then 0 else pollSleeps env 10 0

/-- Express `GET /health`: always a 200 JSON body with `success: true` and
`connected: connectionStatus.get(porta) || false`. -/
def healthHandler (cached : Option Bool) : Resp :=
  ⟨200, "application/json", RespBody.json ⟨true, none, some (cached.getD false), none⟩⟩

/-- Express `GET /status`: when a client exists, try a live `getState`; on
success overwrite the cached connected flag with `state === 'CONNECTED'`, on
failure only log (the cached value is kept).  Then always answer 200 with
`success: true` and the (possibly refreshed) cached flag.  Result: (response,
new cached flag). -/
def statusHandler (clientExists : Bool) (cached : Option Bool)
    (getStateResult : Except String String) : Resp × Option Bool :=
  let newCached :=
    if clientExists then
      match getStateResult with
      | Except.ok st => some (st == "CONNECTED")
      | Except.error _ => cached
    else cached
  (⟨200, "application/json", RespBody.json ⟨true, none, some (newCached.getD false), none⟩⟩,
    newCached)

/-- Express `GET /connect`: 200 JSON `success: true` when `startClient`
returns, 500 JSON `success: false` with the error message when it throws. -/
def connectHandler (startResult : Except String Unit) : Resp :=
  match startResult with
  | Except.ok _ => ⟨200, "application/json", RespBody.json ⟨true, none, none, none⟩⟩
  | Except.error e => ⟨500, "application/json", RespBody.json ⟨false, some e, none, none⟩⟩

/-- Express `GET /qr`: when no client exists, start one and poll the stored
QR for at most 10 one-second sleeps; then answer 200 JSON `success: true`
with `qr: qrCodes.get(porta) || <sentinel>`.  Result: (response, number of
sleeps performed). -/
def qrHandler (clientExists : Bool) (cached : Option Bool)
    (env : Nat → Option String) : Resp × Nat :=
  let n := qrWaitSleeps clientExists env
  (⟨200, "application/json",
      RespBody.json ⟨true, none, some (cached.getD false), some (strOrElse (env n) qrSentinel)⟩⟩,
    n)

/-- Express `GET /qr.png`: same start-and-poll preamble as `/qr`; if no QR is
stored, a 200 plain-text placeholder; otherwise PNG bytes, or — if rendering
throws — a 500 JSON error (`renderResult` is the outcome of
`QRCode.toFileStream`). -/
def qrPngHandler (clientExists : Bool) (env : Nat → Option String)
    (renderResult : Except String Unit) : Resp :=
  let qr := env (qrWaitSleeps clientExists env)
  if strTruthy qr then
    match renderResult with
    | Except.ok _ => ⟨200, "image/png", RespBody.png⟩
    | Except.error e => ⟨500, "application/json", RespBody.json ⟨false, some e, none, none⟩⟩
  else ⟨200, "text/plain; charset=utf-8", RespBody.text qrSentinel⟩

/-- Express `GET /debug/chrome`: always 200 JSON `success: true`. -/
def debugChromeHandler : Resp :=
  ⟨200, "application/json", RespBody.json ⟨true, none, none, none⟩⟩

/-- Body of an Express `POST /send` request (all fields optional in JS). -/
structure SendReq where
  «to» : Option String
  text : Option String
  mediaBase64 : Option String
  mimeType : Option String
  filename : Option String
deriving DecidableEq, Repr

/-- Express `POST /send`: first `if (!to)` → 400 missing-field error; then
`if (!clients.get(porta) || !connectionStatus.get(porta))` → 400
not-connected error; then the media branch (all three of mediaBase64,
mimeType, filename truthy) or the text branch calls the client's
`sendMessage`, answering 200 on success and 500 with a prefixed error on
failure.  `sendResult` is the outcome of the underlying `sendMessage`;
the second component records whether `sendMessage` was invoked. -/
def sendHandler (clientExists : Bool) (cached : Option Bool) (req : SendReq)
    (sendResult : Except String String) : Resp × Bool :=
  if !(strTruthy req.«to») then
    (⟨400, "application/json", RespBody.json ⟨false, some missingToMsg, none, none⟩⟩, false)
  else if !clientExists || !(cached.getD false) then
    (⟨400, "application/json", RespBody.json ⟨false, some notConnectedMsg, none, none⟩⟩, false)
  else if strTruthy req.mediaBase64 && strTruthy req.mimeType && strTruthy req.filename then
    match sendResult with
    | Except.ok _ => (⟨200, "application/json", RespBody.json ⟨true, none, none, none⟩⟩, true)
    | Except.error e =>
        (⟨500, "application/json",
            RespBody.json ⟨false, some ("Erro ao enviar mídia: " ++ e), none, none⟩⟩, true)
  else
    match sendResult with
    | Except.ok _ => (⟨200, "application/json", RespBody.json ⟨true, none, none, none⟩⟩, true)
    | Except.error e =>
        (⟨500, "application/json",
            RespBody.json ⟨false, some ("Erro ao enviar texto: " ++ e), none, none⟩⟩, true)

end WSE

/-- Decimal digit test, as JS `parseInt` recognizes for radix 10. -/
def isDecDigit (c : Char) : Bool := '0' ≤ c && c ≤ '9'

/-- Hexadecimal digit test, for JS `parseInt` after a `0x` prefix. -/
def isHexDigit (c : Char) : Bool :=
  isDecDigit c || ('a' ≤ c && c ≤ 'f') || ('A' ≤ c && c ≤ 'F')

/-- Value of a decimal digit character. -/
def decDigitVal (c : Char) : Nat := c.toNat - '0'.toNat

/-- Value of a hexadecimal digit character. -/
def hexDigitVal (c : Char) : Nat :=
  if isDecDigit c then decDigitVal c
  else if 'a' ≤ c && c ≤ 'f' then c.toNat - 'a'.toNat + 10
  else c.toNat - 'A'.toNat + 10

/-- Longest digit prefix under `pred`, read in the given base; `none` when
there is no digit at all (JS `parseInt` yields `NaN` then). -/
def parseDigits (pred : Char → Bool) (base : Nat) (dv : Char → Nat)
    (cs : List Char) : Option Nat :=
  let ds := cs.takeWhile pred
  if ds.isEmpty then none else some (ds.foldl (fun acc c => acc * base + dv c) 0)

/-- JS `parseInt` sign handling: one optional leading `+` or `-`. -/
def jsStripSign : List Char → Int × List Char
  | '-' :: rest => (-1, rest)
  | '+' :: rest => (1, rest)
  | cs => (1, cs)

/-- Digit parsing of JS `parseInt` after the sign: with no radix argument a
`0x`/`0X` prefix switches to hexadecimal; with radix 10 it does not. -/
def jsParseIntAux (hexAllowed : Bool) (cs : List Char) : Option Nat :=
  match hexAllowed, cs with
  | true, '0' :: 'x' :: rest => parseDigits isHexDigit 16 hexDigitVal rest
  | true, '0' :: 'X' :: rest => parseDigits isHexDigit 16 hexDigitVal rest
  | _, _ => parseDigits isDecDigit 10 decDigitVal cs

/-- JS `parseInt` on a possibly-absent string: skip leading whitespace, read
an optional sign and the longest digit prefix; `none` models `NaN` (also the
result on an absent value, since `parseInt(undefined)` and `parseInt(null)`
are `NaN`). -/
def jsParseIntWith (hexAllowed : Bool) : Option String → Option Int
  | none => none
  | some str =>
    let p := jsStripSign (str.toList.dropWhile Char.isWhitespace)
    (jsParseIntAux hexAllowed p.2).map (fun n => p.1 * (n : Int))

/-- `parseInt(x, 10)` as used by the Express `getPortFromQuery`. -/
def jsParseInt10 : Option String → Option Int := jsParseIntWith false

/-- `parseInt(x)` (no radix) as used by the `|| 3000` variants. -/
def jsParseInt : Option String → Option Int := jsParseIntWith true

namespace WSE

/-- web-server.js (Express server) `getPortFromQuery`:
`const p = parseInt(req.query.port, 10); return Number.isFinite(p) ? p : 3000;`
(`parseInt` returns an integer or `NaN`, and `Number.isFinite(NaN)` is
false, so the check is exactly non-`NaN`). -/
def getPortFromQuery (q : Option String) : Int :=
  match jsParseInt10 q with
  | some n => n
  | none => 3000

end WSE

namespace P5

/-- part_005 `getPortFromQuery`:
`parseInt(url.searchParams.get('port')) || 3000` — `NaN` and `0` are falsy,
so both fall through to 3000.  The first server in web-server.js computes
its port the same way inline. -/
def getPortFromQuery (q : Option String) : Int :=
  match jsParseInt q with
  | some n => if n = 0 then 3000 else n
  | none => 3000

end P5

/-! Helper lemmas shared by the claim theorems. -/

/-- The QR poll loop exits at an index at most `fuel` past its start. -/
theorem pollSleeps_le (env : Nat → Option String) :
    ∀ fuel i, pollSleeps env fuel i ≤ i + fuel := by
  intro fuel
  induction fuel with
  | zero => intro i; simp [pollSleeps]
  | succ f ih =>
      intro i
      unfold pollSleeps
      cases h : strTruthy (env i) with
      | true => simp [h]
      | false =>
          simp only [h, Bool.false_eq_true, if_false]
          have := ih (i + 1)
          omega

/-! Claim theorems. -/

/-- C1, counterexample: with no client stored and no cached connected flag —
so the channel is certainly not CONNECTED — an Express `/send` request whose
`to` field is absent is answered 400 with the missing-field error, not the
`WhatsApp não está conectado` error the claim requires (the underlying
`sendMessage` is still not invoked). -/
theorem send_missing_to_counterexample :
    (WSE.sendHandler false none ⟨none, some "hi", none, none, none⟩ (Except.ok "id")).1 =
      ⟨400, "application/json", WSE.RespBody.json ⟨false, some WSE.missingToMsg, none, none⟩⟩ ∧
    (WSE.sendHandler false none ⟨none, some "hi", none, none, none⟩ (Except.ok "id")).2 = false ∧
    (WSE.missingToMsg == "WhatsApp não está conectado") = false ∧
    (WSE.missingToMsg == WSE.notConnectedMsg) = false := by
  refine ⟨rfl, rfl, by decide, by decide⟩

/-- C1, amended: for every Express `/send` request whose `to` field is
present and non-empty, if no client object exists or the cached connected
flag is unset or false, the response is HTTP 400 with error
`WhatsApp não está conectado.` and the underlying `sendMessage` is never
invoked; for a request without a truthy `to` the handler still answers
HTTP 400 with `success: false` and still never invokes `sendMessage`. -/
theorem send_not_connected_amended (cE : Bool) (cached : Option Bool)
    (req : WSE.SendReq) (sr : Except String String)
    (h : cE = false ∨ cached.getD false = false) :
    (WSE.sendHandler cE cached req sr).2 = false ∧
    (WSE.sendHandler cE cached req sr).1.status = 400 ∧
    (∃ j, (WSE.sendHandler cE cached req sr).1.body = WSE.RespBody.json j ∧
      j.success = false) ∧
    (strTruthy req.«to» = true →
      (WSE.sendHandler cE cached req sr).1.body =
        WSE.RespBody.json ⟨false, some WSE.notConnectedMsg, none, none⟩) := by
  have hc : (!cE || !(cached.getD false)) = true := by
    rcases h with h | h <;> simp [h]
  cases ht : strTruthy req.«to» with
  | false =>
      refine ⟨?_, ?_, ⟨⟨false, some WSE.missingToMsg, none, none⟩, ?_, rfl⟩, ?_⟩ <;>
        simp [WSE.sendHandler, ht]
  | true =>
      refine ⟨?_, ?_, ⟨⟨false, some WSE.notConnectedMsg, none, none⟩, ?_, rfl⟩, ?_⟩ <;>
        simp [WSE.sendHandler, ht, hc]

/-- C1, witness for the amended theorem. -/
theorem send_not_connected_amended_witness :
    (WSE.sendHandler false none ⟨some "551199@c.us", some "hi", none, none, none⟩
        (Except.ok "id")).1.body =
      WSE.RespBody.json ⟨false, some WSE.notConnectedMsg, none, none⟩ :=
  (send_not_connected_amended false none ⟨some "551199@c.us", some "hi", none, none, none⟩
      (Except.ok "id") (Or.inl rfl)).2.2.2 rfl

/-- C2, confirmed: in part_003, when a disconnect is handled with
`retryCount < maxReconnectAttempts`, the reconnect timer is armed with delay
`min(1000 * 2 ^ retryCount, 30000)` milliseconds, and when it fires the
counter is incremented by exactly 1. -/
theorem reconnect_backoff_delay_and_increment (s : ChannelState)
    (h : s.retry < P3.maxReconnectAttempts) :
    (P3.clientOnDisconnected s).2 = some (min (1000 * 2 ^ s.retry) 30000) ∧
    (P3.fireReconnect (P3.clientOnDisconnected s).1).retry = s.retry + 1 := by
  constructor
  · simp [P3.clientOnDisconnected, P3.scheduleReconnect, h]
  · cases hc : s.clientExists <;>
      simp [P3.clientOnDisconnected, P3.fireReconnect, P3.startClient, hc]

/-- C2, witness. -/
theorem reconnect_backoff_delay_and_increment_witness :
    (P3.clientOnDisconnected ⟨true, true, some "q", 3⟩).2 = some (min (1000 * 2 ^ 3) 30000) ∧
    (P3.fireReconnect (P3.clientOnDisconnected ⟨true, true, some "q", 3⟩).1).retry = 3 + 1 :=
  reconnect_backoff_delay_and_increment ⟨true, true, some "q", 3⟩ (by decide)

/-- C3, confirmed: in part_003, once the attempt counter has reached
`maxReconnectAttempts` (5), handling a further disconnect arms no reconnect
timer and leaves the channel disconnected. -/
theorem no_reconnect_after_max_attempts (s : ChannelState)
    (h : P3.maxReconnectAttempts ≤ s.retry) :
    (P3.clientOnDisconnected s).2 = none ∧
    (P3.clientOnDisconnected s).1.connected = false := by
  refine ⟨?_, rfl⟩
  simp only [P3.clientOnDisconnected, P3.scheduleReconnect]
  rw [if_neg (by omega)]

/-- C3, witness. -/
theorem no_reconnect_after_max_attempts_witness :
    (P3.clientOnDisconnected ⟨false, false, none, 5⟩).2 = none ∧
    (P3.clientOnDisconnected ⟨false, false, none, 5⟩).1.connected = false :=
  no_reconnect_after_max_attempts ⟨false, false, none, 5⟩ (by decide)

/-- C4, counterexample: in part_003 an auth-failure is not terminal — the
`auth_failure` handler calls `scheduleReconnect`, so with the counter at 0 a
reconnect timer is armed with delay 1000 ms. -/
theorem auth_failure_schedules_reconnect_counterexample :
    (P3.clientOnAuthFailure ⟨true, true, none, 0⟩).2 = some 1000 ∧
    (P3.clientOnAuthFailure ⟨true, true, none, 0⟩).1.connected = false := by
  refine ⟨by decide, rfl⟩

/-- C4, amended: in the web-server.js (first server) variant, auth-failure
sets the connected flag false, clears the pairing artifact and removes the
client object, and arms no reconnect timer; in the part_003 variant the
`auth_failure` handler behaves exactly like the disconnect handler, arming a
backoff reconnect timer while the counter is below the maximum (and nothing
once it is exhausted).  No variant records a distinct AUTH_FAILED state. -/
theorem auth_failure_behavior_amended (s : ChannelState) :
    (WS1.clientOnAuthFailure s).1.connected = false ∧
    (WS1.clientOnAuthFailure s).1.qr = none ∧
    (WS1.clientOnAuthFailure s).1.clientExists = false ∧
    (WS1.clientOnAuthFailure s).2 = none ∧
    (s.retry < P3.maxReconnectAttempts →
      (P3.clientOnAuthFailure s).2 = some (min (1000 * 2 ^ s.retry) 30000)) ∧
    (P3.maxReconnectAttempts ≤ s.retry → (P3.clientOnAuthFailure s).2 = none) := by
  refine ⟨rfl, rfl, rfl, rfl, ?_, ?_⟩
  · intro h
    simp [P3.clientOnAuthFailure, P3.scheduleReconnect, h]
  · intro h
    simp only [P3.clientOnAuthFailure, P3.scheduleReconnect]
    rw [if_neg (by omega)]

/-- C4, witness for the amended theorem. -/
theorem auth_failure_behavior_amended_witness :
    (P3.clientOnAuthFailure ⟨true, false, none, 2⟩).2 = some (min (1000 * 2 ^ 2) 30000) :=
  (auth_failure_behavior_amended ⟨true, false, none, 2⟩).2.2.2.2.1 (by decide)

/-- C5, counterexample: in part_003 the `qr` event handler stores the code
without touching the connected flag (unlike web-server.js's, which sets it
false), so a `qr` event arriving after `ready` leaves a non-null pairing
artifact while the cached status is still connected — the artifact is not
confined to the awaiting-pairing phase in that variant. -/
theorem qr_while_connected_counterexample :
    (P3.clientOnQR "ABC" (P3.clientOnReady ⟨true, false, none, 0⟩)).qr = some "ABC" ∧
    (P3.clientOnQR "ABC" (P3.clientOnReady ⟨true, false, none, 0⟩)).connected = true :=
  ⟨rfl, rfl⟩

/-- C5, amended: in both the part_003 and the web-server.js (first server)
handlers, the `ready` (transition to CONNECTED) and `disconnected` handlers
leave the stored QR code null; and in the web-server.js variant — whose `qr`
handler also forces the connected flag false — every state reachable through
the event handlers from a freshly started client has the cached connected
flag false whenever a QR code is stored (the artifact exists only while
awaiting pairing).  In part_003 that invariant clause does not hold: its
`qr` handler leaves the connected flag untouched. -/
theorem qr_cleared_and_pairing_only (s : ChannelState) (r : String) :
    (P3.clientOnReady s).qr = none ∧
    (P3.clientOnDisconnected s).1.qr = none ∧
    (WS1.step s WS1.ClientEvent.ready).qr = none ∧
    (WS1.step s (WS1.ClientEvent.disconnected r)).qr = none ∧
    (∀ t, WS1.Reachable t → ∀ q, t.qr = some q → t.connected = false) := by
  refine ⟨rfl, rfl, rfl, rfl, ?_⟩
  intro t ht
  induction ht with
  | start => intro q hq; simp [WS1.startState] at hq
  | next u e _ _ =>
      cases e <;> intro q hq <;> simp [WS1.step] at hq ⊢

/-- C5, witness: the invariant instantiated at the state reached by a `qr`
event from a fresh client. -/
theorem qr_cleared_and_pairing_only_witness :
    (WS1.step WS1.startState (WS1.ClientEvent.qr "ABC")).connected = false :=
  (qr_cleared_and_pairing_only WS1.startState "NAVIGATION").2.2.2.2
    (WS1.step WS1.startState (WS1.ClientEvent.qr "ABC"))
    (WS1.Reachable.next _ _ WS1.Reachable.start) "ABC" rfl

/-- C6, confirmed: the Express `/qr` handler polls at most 10 one-second
sleeps and then answers 200 with the stored artifact when one is present and
the sentinel placeholder otherwise; part_004's `waitQR` performs at most 30
one-second polls.  Both loops are structurally bounded, so neither blocks
indefinitely. -/
theorem qr_wait_bounded (cE : Bool) (cached : Option Bool)
    (env : Nat → Option String) :
    (WSE.qrHandler cE cached env).2 ≤ 10 ∧
    (WSE.qrHandler cE cached env).1.status = 200 ∧
    (strTruthy (env ((WSE.qrHandler cE cached env).2)) = true →
      (WSE.qrHandler cE cached env).1.body =
        WSE.RespBody.json ⟨true, none, some (cached.getD false),
          some ((env ((WSE.qrHandler cE cached env).2)).getD WSE.qrSentinel)⟩) ∧
    (strTruthy (env ((WSE.qrHandler cE cached env).2)) = false →
      (WSE.qrHandler cE cached env).1.body =
        WSE.RespBody.json ⟨true, none, some (cached.getD false), some WSE.qrSentinel⟩) ∧
    P4.waitQR env ≤ 30 := by
  refine ⟨?_, rfl, ?_, ?_, ?_⟩
  · cases cE with
    | true => simp [WSE.qrHandler, WSE.qrWaitSleeps]
    | false =>
        simpa [WSE.qrHandler, WSE.qrWaitSleeps] using pollSleeps_le env 10 0
  · intro h
    have h2 : strTruthy (env (WSE.qrWaitSleeps cE env)) = true := h
    simp [WSE.qrHandler, strOrElse, h2]
  · intro h
    have h2 : strTruthy (env (WSE.qrWaitSleeps cE env)) = false := h
    simp [WSE.qrHandler, strOrElse, h2]
  · simpa [P4.waitQR] using pollSleeps_le env 30 0

/-- C6, witness. -/
theorem qr_wait_bounded_witness :
    (WSE.qrHandler true none (fun _ => none)).1.body =
      WSE.RespBody.json ⟨true, none, some false, some WSE.qrSentinel⟩ :=
  (qr_wait_bounded true none (fun _ => none)).2.2.2.1 rfl

/-- C7, counterexample: the Express `/qr.png` handler with no stored QR code
answers 200 with a plain-text placeholder — not a JSON object carrying a
`success` boolean. -/
theorem qr_png_not_json_counterexample :
    WSE.respJsonOk (WSE.qrPngHandler true (fun _ => none) (Except.ok ())) = false ∧
    WSE.qrPngHandler true (fun _ => none) (Except.ok ()) =
      ⟨200, "text/plain; charset=utf-8", WSE.RespBody.text WSE.qrSentinel⟩ :=
  ⟨rfl, rfl⟩

/-- C7, amended: every modeled Express endpoint except `/qr.png` answers a
JSON object with a boolean `success` field whose failure responses carry an
`error` string; `/qr.png` instead answers PNG bytes when an artifact is
stored and rendering succeeds, a 200 plain-text placeholder when no artifact
is stored, and a 500 JSON error when rendering throws. -/
theorem json_success_responses_amended :
    (∀ cached, WSE.respJsonOk (WSE.healthHandler cached) = true) ∧
    (∀ cE cached st, WSE.respJsonOk (WSE.statusHandler cE cached st).1 = true) ∧
    (∀ r, WSE.respJsonOk (WSE.connectHandler r) = true) ∧
    (∀ cE cached env, WSE.respJsonOk (WSE.qrHandler cE cached env).1 = true) ∧
    (∀ cE cached req sr, WSE.respJsonOk (WSE.sendHandler cE cached req sr).1 = true) ∧
    WSE.respJsonOk WSE.debugChromeHandler = true ∧
    (∀ cE env rr, strTruthy (env (WSE.qrWaitSleeps cE env)) = false →
      WSE.qrPngHandler cE env rr =
        ⟨200, "text/plain; charset=utf-8", WSE.RespBody.text WSE.qrSentinel⟩) ∧
    (∀ cE env, strTruthy (env (WSE.qrWaitSleeps cE env)) = true →
      WSE.qrPngHandler cE env (Except.ok ()) = ⟨200, "image/png", WSE.RespBody.png⟩ ∧
      ∀ e, (WSE.qrPngHandler cE env (Except.error e)).status = 500 ∧
        WSE.respJsonOk (WSE.qrPngHandler cE env (Except.error e)) = true) := by
  refine ⟨fun cached => rfl, ?_, ?_, fun cE cached env => rfl, ?_, rfl, ?_, ?_⟩
  · intro cE cached st
    cases cE <;> cases st <;> rfl
  · intro r
    cases r <;> rfl
  · intro cE cached req sr
    cases ht : strTruthy req.«to» with
    | false => simp [WSE.sendHandler, ht, WSE.respJsonOk]
    | true =>
        cases hc : (!cE || !(cached.getD false)) with
        | true => simp [WSE.sendHandler, ht, hc, WSE.respJsonOk]
        | false =>
            cases hm : (strTruthy req.mediaBase64 && strTruthy req.mimeType &&
                strTruthy req.filename) <;>
              cases sr <;> simp [WSE.sendHandler, ht, hc, hm, WSE.respJsonOk]
  · intro cE env rr h
    simp [WSE.qrPngHandler, h]
  · intro cE env h
    refine ⟨?_, ?_⟩
    · simp [WSE.qrPngHandler, h]
    · intro e
      constructor <;> simp [WSE.qrPngHandler, WSE.respJsonOk, h]

/-- C7, witness for the amended theorem. -/
theorem json_success_responses_amended_witness :
    WSE.qrPngHandler true (fun _ => some "CODE") (Except.ok ()) =
      ⟨200, "image/png", WSE.RespBody.png⟩ :=
  (json_success_responses_amended.2.2.2.2.2.2.2 true (fun _ => some "CODE") rfl).1

/-- C8, counterexample: in the web-server.js (first server) variant,
`startClient` on a channel whose client object exists but whose cached
connected flag is false returns immediately: nothing is destroyed and no
fresh client is created, contrary to the claimed teardown-and-recreate. -/
theorem stale_client_noop_counterexample :
    WS1.startClient ⟨true, false, none, 0⟩ = (⟨true, false, none, 0⟩, false, false) := by
  decide

/-- C8, amended: part_003's `startClient` is a no-op exactly when a client
exists and the cached flag says connected, and otherwise destroys any
existing client before storing a fresh one; the web-server.js variant's
`startClient` is a no-op whenever any client object exists, healthy or not,
and never tears one down. -/
theorem startClient_behavior_amended (s : ChannelState) :
    (s.clientExists = true → s.connected = true → P3.startClient s = (s, false, false)) ∧
    (s.clientExists = false ∨ s.connected = false →
      (P3.startClient s).2.2 = true ∧ (P3.startClient s).2.1 = s.clientExists ∧
      (P3.startClient s).1.clientExists = true) ∧
    (s.clientExists = true → WS1.startClient s = (s, false, false)) := by
  refine ⟨?_, ?_, ?_⟩
  · intro h1 h2
    simp [P3.startClient, h1, h2]
  · intro h
    cases he : s.clientExists with
    | false => simp [P3.startClient, he]
    | true =>
        have hconn : s.connected = false := by
          rcases h with h | h
          · rw [he] at h; cases h
          · exact h
        simp [P3.startClient, he, hconn]
  · intro h
    simp [WS1.startClient, h]

/-- C8, witness for the amended theorem. -/
theorem startClient_behavior_amended_witness :
    (P3.startClient ⟨true, false, some "q", 2⟩).2.2 = true ∧
    (P3.startClient ⟨true, false, some "q", 2⟩).2.1 = true ∧
    (P3.startClient ⟨true, false, some "q", 2⟩).1.clientExists = true :=
  (startClient_behavior_amended ⟨true, false, some "q", 2⟩).2.1 (Or.inr rfl)

/-- C9, confirmed: the Express `/status` handler always answers HTTP 200 with
`success: true` and the (possibly refreshed) cached connected flag; when the
live `getState` call throws, the failure is swallowed, the cached value is
kept, and the response reports exactly that cached value. -/
theorem status_refresh_failure_swallowed (cE : Bool) (cached : Option Bool)
    (st : Except String String) :
    (WSE.statusHandler cE cached st).1.status = 200 ∧
    (WSE.statusHandler cE cached st).1.body =
      WSE.RespBody.json
        ⟨true, none, some (((WSE.statusHandler cE cached st).2).getD false), none⟩ ∧
    (∀ e, st = Except.error e →
      (WSE.statusHandler cE cached st).2 = cached ∧
      (WSE.statusHandler cE cached st).1.body =
        WSE.RespBody.json ⟨true, none, some (cached.getD false), none⟩) := by
  refine ⟨rfl, rfl, ?_⟩
  intro e he
  subst he
  cases cE <;> exact ⟨rfl, rfl⟩

/-- C9, witness. -/
theorem status_refresh_failure_swallowed_witness :
    (WSE.statusHandler true (some true) (Except.error "boom")).2 = some true ∧
    (WSE.statusHandler true (some true) (Except.error "boom")).1.body =
      WSE.RespBody.json ⟨true, none, some true, none⟩ :=
  (status_refresh_failure_swallowed true (some true) (Except.error "boom")).2.2 "boom" rfl

/-- C10, counterexample: the query string `port=0` parses to the finite
integer 0, yet the `parseInt(...) || 3000` variant of `getPortFromQuery`
(part_005, and inlined in the first web-server.js server) resolves it to the
default 3000 instead of using 0. -/
theorem port_zero_fallback_counterexample :
    jsParseInt (some "0") = some 0 ∧
    P5.getPortFromQuery (some "0") = 3000 ∧
    (P5.getPortFromQuery (some "0") == (0 : Int)) = false := by
  refine ⟨rfl, rfl, by decide⟩

/-- C10, amended: an absent or unparseable `port` parameter resolves to 3000
in both variants; a parse to a finite integer is used as the channel id in
the Express (`Number.isFinite`) variant, while in the `|| 3000` variants a
nonzero parse is used and a parse of 0 falls back to 3000. -/
theorem getPortFromQuery_amended (q : Option String) :
    (jsParseInt10 q = none → WSE.getPortFromQuery q = 3000) ∧
    (∀ n, jsParseInt10 q = some n → WSE.getPortFromQuery q = n) ∧
    (jsParseInt q = none → P5.getPortFromQuery q = 3000) ∧
    (∀ n, jsParseInt q = some n → n ≠ 0 → P5.getPortFromQuery q = n) ∧
    (jsParseInt q = some 0 → P5.getPortFromQuery q = 3000) := by
  refine ⟨?_, ?_, ?_, ?_, ?_⟩
  · intro h; simp [WSE.getPortFromQuery, h]
  · intro n h; simp [WSE.getPortFromQuery, h]
  · intro h; simp [P5.getPortFromQuery, h]
  · intro n h hn; simp [P5.getPortFromQuery, h, hn]
  · intro h; simp [P5.getPortFromQuery, h]

/-- C10, witness for the amended theorem. -/
theorem getPortFromQuery_amended_witness :
    WSE.getPortFromQuery (some "7") = 7 ∧ P5.getPortFromQuery (some "7") = 7 :=
  ⟨(getPortFromQuery_amended (some "7")).2.1 7 rfl,
    (getPortFromQuery_amended (some "7")).2.2.2.1 7 rfl (by decide)⟩

end WWeb
